import Mathlib

/-!
Verification of the Focus-Wristband streaming alert pipeline
(`test/test_pipeline.py`, `FocusPlotter.py`, `baseline.py`).

The pipeline's numeric state is modelled over `ℚ` (exact arithmetic in
place of Python floats); the undefined (`NaN`) dispersion statistic is
modelled as `none : Option ℚ`, matching the code's `math.isfinite`
guard.  The variability estimator (`compute_sdnn`, `rolling_sdnn`),
whose result involves a square root, is modelled over `ℝ`.
-/

namespace FocusWristband

/-- Frame period in seconds (`DT = 0.1` in `test_pipeline.py`). -/
def DT : ℚ := 1 / 10

/-- Class `BaselineEMA` from `test_pipeline.py` (same update rule as
`FocusPlotter.py`; `baseline.py` writes the algebraically identical
`alpha * x + (1 - alpha) * old`): the smoothing factor and the current
EMA value, `none` until the first call. -/
structure BaselineEMA where
  alpha : ℚ
  value : Option ℚ
deriving DecidableEq

/-- Constructor `BaselineEMA.__init__(alpha, init=None)`: stores `alpha` unchanged,
performs no validation. -/
def BaselineEMA.mk0 (alpha : ℚ) : BaselineEMA := ⟨alpha, none⟩

/-- Method `BaselineEMA.update`: first call initializes to `x`, later calls
apply `new = (1 - alpha) * old + alpha * x`; returns the new value. -/
def BaselineEMA.update (b : BaselineEMA) (x : ℚ) : BaselineEMA × ℚ :=
  match b.value with
  | none => (⟨b.alpha, some x⟩, x)
  | some old =>
      let nv := (1 - b.alpha) * old + b.alpha * x
      (⟨b.alpha, some nv⟩, nv)

/-- One evaluation of the alert state machine, transcribing the loop body
of `detect_alerts_and_log` (identical in `FocusPlotter.update`):

    if is_below: below_counter += 1
    else: below_counter = 0; in_alert = False
    alert_flag = 0
    if below_counter >= sustain_frames and not in_alert:
        in_alert = True; <emit alert>; alert_flag = 1

Returns `(new counter, new latch, fired)`. -/
def alertStep (sustain_frames : ℕ) (below_counter : ℕ) (in_alert : Bool)
    (is_below : Bool) : ℕ × Bool × Bool :=
  let c := if is_below then below_counter + 1 else 0
  let latch := if is_below then in_alert else false
  if sustain_frames ≤ c ∧ latch = false then (c, true, true)
  else (c, latch, false)

/-- Mutable state threaded through `detect_alerts_and_log`'s loop. -/
structure PipelineState where
  baseline : BaselineEMA
  below_counter : ℕ
  in_alert : Bool
deriving DecidableEq

/-- One CSV row written by `detect_alerts_and_log`:
`frame,time_s,RR_ms,SDNN_ms,Baseline_ms,Threshold_ms,AlertFlag`. -/
structure Row where
  frame : ℕ
  time_s : ℚ
  rr : ℚ
  sdnn : ℚ
  baseline : ℚ
  threshold : ℚ
  alertFlag : ℕ
deriving DecidableEq

/-- One alert record appended by `detect_alerts_and_log`:
`(frame_index, sdnn_val, threshold, baseline)`. -/
structure Alert where
  frame : ℕ
  sdnn : ℚ
  threshold : ℚ
  baseline : ℚ
deriving DecidableEq

/-- One iteration of `detect_alerts_and_log`'s loop for sample `i`:
a non-finite statistic (`none`) is skipped (`continue`) — no state
change, no row, no alert; a finite statistic updates the baseline,
computes the threshold `(1 - drop_pct) * b`, tests `sdnn < threshold`
and runs the alert step. -/
def pipelineStep (drop_pct : ℚ) (sustain_frames : ℕ) (s : PipelineState)
    (i : ℕ) (rr : ℚ) (sdnn : Option ℚ) :
    PipelineState × Option Row × Option Alert :=
  match sdnn with
  | none => (s, none, none)
  | some x =>
      let t := (i : ℚ) * DT
      let p := s.baseline.update x
      let b := p.2
      let threshold := (1 - drop_pct) * b
      let is_below := decide (x < threshold)
      let r := alertStep sustain_frames s.below_counter s.in_alert is_below
      (⟨p.1, r.1, r.2.1⟩,
       some ⟨i, t, rr, x, b, threshold, if r.2.2 then 1 else 0⟩,
       if r.2.2 then some ⟨i, x, threshold, b⟩ else none)

/-- Result of running the whole loop: final state, CSV rows, alert list. -/
structure RunResult where
  state : PipelineState
  rows : List Row
  alerts : List Alert
deriving DecidableEq

/-- The loop of `detect_alerts_and_log` over the enumerated
`zip(rr_series, sdnn_series)`, starting at frame index `i`. -/
def runPipeline (drop_pct : ℚ) (sustain_frames : ℕ) :
    PipelineState → ℕ → List (ℚ × Option ℚ) → RunResult
  | s, _, [] => ⟨s, [], []⟩
  | s, i, (rr, sd) :: rest =>
      let r := pipelineStep drop_pct sustain_frames s i rr sd
      let tail := runPipeline drop_pct sustain_frames r.1 (i + 1) rest
      ⟨tail.state, r.2.1.toList ++ tail.rows, r.2.2.toList ++ tail.alerts⟩

/-- Function `detect_alerts_and_log(rr_series, sdnn_series, alpha, drop_pct,
sustain_frames, csv_path)`: fresh `BaselineEMA(alpha)`, counter `0`,
latch `False`, then the loop over `enumerate(zip(rr_series,
sdnn_series))` from index `0`. -/
def detect_alerts_and_log (rr_series : List ℚ) (sdnn_series : List (Option ℚ))
    (alpha drop_pct : ℚ) (sustain_frames : ℕ) : RunResult :=
  runPipeline drop_pct sustain_frames ⟨BaselineEMA.mk0 alpha, 0, false⟩ 0
    (rr_series.zip sdnn_series)

/-- Run of the alert state machine alone on a list of `is_below` flags
(the outcomes of the `sdnn < threshold` test), from a given counter and
latch, numbering observations from `i`.  Returns the final
`(counter, latch)` and the indices of observations at which an alert
event fired.  Each step is `alertStep`, the loop body of
`detect_alerts_and_log` and `FocusPlotter.update`. -/
def alertRun (sustain_frames : ℕ) :
    ℕ → Bool → ℕ → List Bool → (ℕ × Bool) × List ℕ
  | c, latch, _, [] => ((c, latch), [])
  | c, latch, i, b :: bs =>
      let r := alertStep sustain_frames c latch b
      let rest := alertRun sustain_frames r.1 r.2.1 (i + 1) bs
      (rest.1, (if r.2.2 then [i] else []) ++ rest.2)

noncomputable section SdnnDefs

/-- Arithmetic mean of a window (`arr.mean()` in numpy). -/
def listMean (w : List ℝ) : ℝ := w.sum / w.length

/-- Function `compute_sdnn(rr_ms_window)` from `test_pipeline.py`: `NaN`
(modelled as `none`) when the window holds fewer than 2 samples, else
`np.std(arr, ddof=1)` — the square root of the sum of squared
deviations from the mean divided by `n - 1`. -/
def compute_sdnn (w : List ℝ) : Option ℝ :=
  if w.length < 2 then none
  else some (Real.sqrt ((w.map (fun x => (x - listMean w) ^ 2)).sum /
    ((w.length : ℝ) - 1)))

/-- Function `rolling_sdnn(rr_series, window_frames)`: at each index `i`,
`compute_sdnn` of the slice
`rr_series[max(0, i - window_frames + 1) : i + 1]` (here expressed with
`List.drop`/`List.take` and truncated `ℕ` subtraction, so the start
index is `i + 1 - window_frames`). -/
def rolling_sdnn (rr_series : List ℝ) (window_frames : ℕ) : List (Option ℝ) :=
  (List.range rr_series.length).map fun i =>
    compute_sdnn ((rr_series.drop (i + 1 - window_frames)).take
      (i + 1 - (i + 1 - window_frames)))

/-- The last `n` elements of a list. -/
def lastN {α : Type} (n : ℕ) (l : List α) : List α := l.drop (l.length - n)

/-- The spec's words: "the unbiased sample standard deviation
(denominator n−1)" of a window — stated on its own for comparison with
the source's `compute_sdnn`/`rolling_sdnn`. -/
def specSampleStd (w : List ℝ) : ℝ :=
  Real.sqrt ((w.map (fun x => (x - w.sum / w.length) ^ 2)).sum /
    ((w.length : ℝ) - 1))

/-- The clamp applied inside `synth_rr_series`:
`val = max(300.0, min(2000.0, val))`. -/
def clamp (x : ℝ) : ℝ := max 300 (min 2000 x)

/-- Generator `synth_rr_series`: every emitted RR sample is a `random.gauss` draw
clamped to `[300, 2000]`; the external random draws (across all phases)
are supplied as the list `raws`, and the generator appends the clamp of
each draw, with no count or log of whether clamping occurred. -/
def synth_rr_series (raws : List ℝ) : List ℝ := raws.map clamp

end SdnnDefs

/-- A run of below-threshold observations with the latch already set
never fires: the `not in_alert` conjunct blocks re-emission. -/
lemma alertRun_latched (k : ℕ) :
    ∀ (m c i : ℕ),
      alertRun k c true i (List.replicate m true) = ((c + m, true), []) := by
  intro m
  induction m with
  | zero => intro c i; simp [alertRun]
  | succ m ih =>
      intro c i
      have hstep : alertStep k c true true = (c + 1, true, false) := by
        simp [alertStep]
      simp only [List.replicate_succ, alertRun, hstep]
      rw [ih (c + 1) (i + 1)]
      have e1 : c + 1 + m = c + (m + 1) := by omega
      simp [e1]

/-- A run of `m` below-threshold observations from an unlatched state
with counter `c < k`: if the counter never reaches `k` no alert fires;
otherwise exactly one alert fires, at the observation where the counter
first reaches `k`. -/
lemma alertRun_below_run (k : ℕ) :
    ∀ (m c i : ℕ), c < k →
      alertRun k c false i (List.replicate m true) =
        if c + m < k then ((c + m, false), [])
        else ((c + m, true), [i + (k - 1 - c)]) := by
  intro m
  induction m with
  | zero => intro c i hc; simp [alertRun, hc]
  | succ m ih =>
      intro c i hc
      by_cases hk : k ≤ c + 1
      · -- counter reaches k at this observation: fire, then stay latched
        have hck : c + 1 = k := by omega
        have hstep : alertStep k c false true = (c + 1, true, true) := by
          simp [alertStep, hk]
        simp only [List.replicate_succ, alertRun, hstep]
        rw [alertRun_latched k m (c + 1) (i + 1)]
        have hnm : ¬ c + (m + 1) < k := by omega
        have e1 : c + 1 + m = c + (m + 1) := by omega
        have e2 : k - 1 - c = 0 := by omega
        simp [hnm, e1, e2]
      · -- counter still short of k: no fire, recurse
        have hstep : alertStep k c false true = (c + 1, false, false) := by
          simp [alertStep]; omega
        simp only [List.replicate_succ, alertRun, hstep]
        rw [ih (c + 1) (i + 1) (by omega)]
        have e1 : c + 1 + m = c + (m + 1) := by omega
        by_cases hm : c + (m + 1) < k
        · have h1 : c + 1 + m < k := by omega
          simp [h1, hm, e1]
        · have h1 : ¬ c + 1 + m < k := by omega
          have e3 : i + 1 + (k - 1 - (c + 1)) = i + (k - 1 - c) := by omega
          simp [h1, hm, e1, e3]

/-- Splitting a run of the alert machine across a list append. -/
lemma alertRun_append (k : ℕ) :
    ∀ (l₁ l₂ : List Bool) (c : ℕ) (latch : Bool) (i : ℕ),
      alertRun k c latch i (l₁ ++ l₂) =
        ((alertRun k (alertRun k c latch i l₁).1.1
            (alertRun k c latch i l₁).1.2 (i + l₁.length) l₂).1,
         (alertRun k c latch i l₁).2 ++
           (alertRun k (alertRun k c latch i l₁).1.1
              (alertRun k c latch i l₁).1.2 (i + l₁.length) l₂).2) := by
  intro l₁
  induction l₁ with
  | nil => intro l₂ c latch i; simp [alertRun]
  | cons b bs ih =>
      intro l₂ c latch i
      simp only [List.cons_append, alertRun, List.length_cons, List.append_eq]
      rw [ih l₂ (alertStep k c latch b).1 (alertStep k c latch b).2.1 (i + 1)]
      have e : i + 1 + bs.length = i + (bs.length + 1) := by omega
      simp [e, List.append_assoc]

/-- C1: Alert debounce, for any sustain count `k ≥ 1`, from the
initial state (counter `0`, latch `false`): `k - 1` consecutive
below-threshold observations followed by one non-below observation
produce zero alert events; `k` consecutive below-threshold observations
produce exactly one alert event, at the `k`-th observation (index
`k - 1`); `2k` consecutive below-threshold observations still produce
exactly that one alert event, not two. -/
theorem alert_debounce (k : ℕ) (hk : 1 ≤ k) :
    (alertRun k 0 false 0 (List.replicate (k - 1) true ++ [false])).2 = [] ∧
    (alertRun k 0 false 0 (List.replicate k true)).2 = [k - 1] ∧
    (alertRun k 0 false 0 (List.replicate (2 * k) true)).2 = [k - 1] := by
  refine ⟨?_, ?_, ?_⟩
  · rw [alertRun_append]
    rw [alertRun_below_run k (k - 1) 0 0 hk]
    have h1 : 0 + (k - 1) < k := by omega
    simp only [h1, if_true]
    have hstep : alertStep k (k - 1) false false = (0, false, false) := by
      simp [alertStep]; omega
    simp [alertRun, hstep]
  · rw [alertRun_below_run k k 0 0 hk]
    have h2 : ¬ k < k := by omega
    simp [h2]
  · rw [alertRun_below_run k (2 * k) 0 0 hk]
    have h3 : ¬ 2 * k < k := by omega
    simp [h3]

/-- Witness for `alert_debounce` at sustain count `k = 3`. -/
theorem alert_debounce_witness :
    (1 ≤ 3) ∧
    ((alertRun 3 0 false 0 (List.replicate 2 true ++ [false])).2 = [] ∧
     (alertRun 3 0 false 0 (List.replicate 3 true)).2 = [2] ∧
     (alertRun 3 0 false 0 (List.replicate 6 true)).2 = [2]) :=
  ⟨by decide, alert_debounce 3 (by decide)⟩

/-- C3: Baseline Tracker: the first call to `update` with `x1`
returns exactly `x1`; the second call then returns
`(1 - α) * x1 + α * x2`; and every call on an initialized tracker
applies `new = (1 - α) * old + α * x`. -/
theorem baselineEMA_first_second_and_recurrence (α x1 x2 : ℚ) :
    ((BaselineEMA.mk0 α).update x1).2 = x1 ∧
    ((((BaselineEMA.mk0 α).update x1).1).update x2).2 = (1 - α) * x1 + α * x2 ∧
    ∀ (b : BaselineEMA) (v x : ℚ), b.value = some v →
      (b.update x).2 = (1 - b.alpha) * v + b.alpha * x := by
  refine ⟨rfl, rfl, ?_⟩
  intro b v x hv
  cases b with
  | mk a w => cases hv; rfl

/-- Witness for `baselineEMA_first_second_and_recurrence` at
`α = 1/2`, `x1 = 3`, `x2 = 5`, and an initialized tracker
`⟨1/2, some 3⟩` fed `x = 7`. -/
theorem baselineEMA_first_second_and_recurrence_witness :
    ((BaselineEMA.mk0 (1/2)).update 3).2 = 3 ∧
    ((((BaselineEMA.mk0 (1/2)).update 3).1).update 5).2 = (1 - 1/2) * 3 + (1/2) * 5 ∧
    ((⟨1/2, some 3⟩ : BaselineEMA).update 7).2 = (1 - 1/2) * 3 + (1/2) * 7 :=
  ⟨(baselineEMA_first_second_and_recurrence (1/2) 3 5).1,
   (baselineEMA_first_second_and_recurrence (1/2) 3 5).2.1,
   (baselineEMA_first_second_and_recurrence (1/2) 3 7).2.2
     ⟨1/2, some 3⟩ 3 7 rfl⟩

/-- C4: An observation whose dispersion statistic is undefined
(`none`, the `NaN` sentinel) leaves the whole pipeline state — baseline,
consecutive-below counter and in-alert latch — unchanged, and emits no
alert (and no row): the loop body is `continue`. -/
theorem nan_statistic_skips_state_and_alert
    (drop_pct : ℚ) (sustain_frames : ℕ) (s : PipelineState) (i : ℕ) (rr : ℚ) :
    pipelineStep drop_pct sustain_frames s i rr none = (s, none, none) := rfl

/-- C8: Tie boundary: when the statistic is exactly the threshold
`(1 - p) * b` (with `b` the baseline reading used at this observation),
the strict `<` test fails, so the below branch is not taken: the counter
is reset to `0`, the latch is cleared, and (for any sustain count
`k ≥ 1`) no alert event is emitted. -/
theorem tie_statistic_not_below (drop_pct : ℚ) (k : ℕ) (s : PipelineState)
    (i : ℕ) (rr x : ℚ) (hk : 1 ≤ k)
    (htie : x = (1 - drop_pct) * (s.baseline.update x).2) :
    (pipelineStep drop_pct k s i rr (some x)).1.below_counter = 0 ∧
    (pipelineStep drop_pct k s i rr (some x)).1.in_alert = false ∧
    (pipelineStep drop_pct k s i rr (some x)).2.2 = none := by
  have hb : decide (x < (1 - drop_pct) * (s.baseline.update x).2) = false := by
    rw [← htie]; simp
  have hk0 : ¬ k = 0 := by omega
  simp [pipelineStep, alertStep, hb, hk0]

/-- Witness for `tie_statistic_not_below`: drop fraction `1/5`,
sustain count `1`, initial state, statistic `0` (first baseline reading
is `0`, so threshold `= (4/5)·0 = 0 =` the statistic). -/
theorem tie_statistic_not_below_witness :
    (1 ≤ 1) ∧
    ((0 : ℚ) = (1 - 1/5) * (((⟨BaselineEMA.mk0 (1/2), 0, false⟩ :
        PipelineState).baseline.update 0).2)) ∧
    ((pipelineStep (1/5) 1 ⟨BaselineEMA.mk0 (1/2), 0, false⟩ 0 1000
        (some 0)).1.below_counter = 0 ∧
     (pipelineStep (1/5) 1 ⟨BaselineEMA.mk0 (1/2), 0, false⟩ 0 1000
        (some 0)).1.in_alert = false ∧
     (pipelineStep (1/5) 1 ⟨BaselineEMA.mk0 (1/2), 0, false⟩ 0 1000
        (some 0)).2.2 = none) :=
  ⟨by decide, by norm_num [BaselineEMA.mk0, BaselineEMA.update],
   tie_statistic_not_below (1/5) 1 ⟨BaselineEMA.mk0 (1/2), 0, false⟩ 0 1000 0
     (by decide) (by norm_num [BaselineEMA.mk0, BaselineEMA.update])⟩

/-- The alert step preserves the invariant
"latch set → counter ≥ sustain count". -/
lemma pipelineStep_latch_inv (drop_pct : ℚ) (k : ℕ) (s : PipelineState)
    (i : ℕ) (rr : ℚ) (sd : Option ℚ)
    (hs : s.in_alert = true → k ≤ s.below_counter) :
    (pipelineStep drop_pct k s i rr sd).1.in_alert = true →
      k ≤ (pipelineStep drop_pct k s i rr sd).1.below_counter := by
  cases sd with
  | none => exact hs
  | some x =>
      simp only [pipelineStep, alertStep]
      cases hb : decide (x < (1 - drop_pct) * (s.baseline.update x).2) with
      | false =>
          simp only [hb, Bool.false_eq_true, if_false]
          by_cases hk : k = 0
          · subst hk; simp
          · simp [hk]
      | true =>
          simp only [hb, if_true]
          by_cases hf : k ≤ s.below_counter + 1 ∧ s.in_alert = false
          · simp only [hf, if_true]
            intro _; exact hf.1
          · simp only [hf, if_false]
            intro h
            exact le_trans (hs h) (Nat.le_succ _)

/-- The invariant "latch set → counter ≥ sustain count" is preserved by
any run of the pipeline loop. -/
lemma runPipeline_latch_inv (drop_pct : ℚ) (k : ℕ) :
    ∀ (l : List (ℚ × Option ℚ)) (s : PipelineState) (i : ℕ),
      (s.in_alert = true → k ≤ s.below_counter) →
      ((runPipeline drop_pct k s i l).state.in_alert = true →
        k ≤ (runPipeline drop_pct k s i l).state.below_counter) := by
  intro l
  induction l with
  | nil => intro s i hs; exact hs
  | cons q rest ih =>
      intro s i hs
      cases q with
      | mk rr sd =>
          exact ih _ (i + 1) (pipelineStep_latch_inv drop_pct k s i rr sd hs)

/-- C9: Latch invariant: after processing any sample sequence from
the initial state (counter `0`, latch `false`), if the in-alert latch is
set then the consecutive-below counter is at least the sustain count —
the latch is never set while the counter is below the sustain count. -/
theorem latch_implies_counter_ge_sustain (alpha drop_pct : ℚ) (k : ℕ)
    (rr : List ℚ) (sdnn : List (Option ℚ))
    (h : (detect_alerts_and_log rr sdnn alpha drop_pct k).state.in_alert = true) :
    k ≤ (detect_alerts_and_log rr sdnn alpha drop_pct k).state.below_counter :=
  runPipeline_latch_inv drop_pct k (rr.zip sdnn)
    ⟨BaselineEMA.mk0 alpha, 0, false⟩ 0 (by intro hfalse; cases hfalse) h

/-- Witness for `latch_implies_counter_ge_sustain`: one sample with
statistic `-1` and sustain count `1` drives the pipeline into alert
(threshold `(4/5)·(-1) = -4/5 > -1`), and the counter is indeed `≥ 1`. -/
theorem latch_implies_counter_ge_sustain_witness :
    (detect_alerts_and_log [1000] [some (-1)] (1/2) (1/5) 1).state.in_alert
        = true ∧
    1 ≤ (detect_alerts_and_log [1000] [some (-1)] (1/2) (1/5) 1).state.below_counter := by
  have hlt : (detect_alerts_and_log [1000] [some (-1)] (1/2) (1/5)
      1).state.in_alert = true := by
    have hb : (-1 : ℚ) < (1 - 1/5) * (-1) := by norm_num
    simp [detect_alerts_and_log, runPipeline, pipelineStep, alertStep,
      BaselineEMA.update, BaselineEMA.mk0, hb]
  exact ⟨hlt, latch_implies_counter_ge_sustain (1/2) (1/5) 1 [1000]
    [some (-1)] hlt⟩

/-- C10: For every observation with a finite statistic, the baseline
EMA is updated with that statistic unconditionally — whatever the
counter and latch, i.e. also inside an active alert episode — and the
threshold recorded for the observation is `(1 - p)` times that freshly
updated baseline, so the threshold test uses the post-update reading. -/
theorem baseline_updates_unconditionally (drop_pct : ℚ) (k : ℕ)
    (s : PipelineState) (i : ℕ) (rr x : ℚ) :
    (pipelineStep drop_pct k s i rr (some x)).1.baseline =
        (s.baseline.update x).1 ∧
    ((pipelineStep drop_pct k s i rr (some x)).2.1.map Row.baseline) =
        some (s.baseline.update x).2 ∧
    ((pipelineStep drop_pct k s i rr (some x)).2.1.map Row.threshold) =
        some ((1 - drop_pct) * (s.baseline.update x).2) :=
  ⟨rfl, rfl, rfl⟩

/-- Count of CSV rows produced by a run of the loop: one per finite
(`some`) statistic, none for the skipped `NaN` statistics. -/
lemma runPipeline_rows_length (drop_pct : ℚ) (k : ℕ) :
    ∀ (l : List (ℚ × Option ℚ)) (s : PipelineState) (i : ℕ),
      (runPipeline drop_pct k s i l).rows.length =
        (l.filter (fun q => q.2.isSome)).length := by
  intro l
  induction l with
  | nil => intro s i; rfl
  | cons q rest ih =>
      intro s i
      cases q with
      | mk rr sd =>
          cases sd with
          | none => simpa [runPipeline, pipelineStep] using ih _ (i + 1)
          | some x =>
              simp only [runPipeline, pipelineStep, List.filter_cons]
              simp [ih _ (i + 1)]

/-- C5 counterexample: Feeding one sample whose dispersion statistic
is the undefined sentinel produces zero telemetry records, not one: the
loop `continue`s before writing the CSV row, so no record with an
"undefined marker" exists. -/
theorem telemetry_row_per_sample_counterexample :
    (detect_alerts_and_log [1000] [none] (1/2) (1/5) 3).rows = [] ∧
    [((1000 : ℚ), (none : Option ℚ))].length = 1 := by
  exact ⟨rfl, rfl⟩

/-- C5 amended: Exactly one telemetry record
`{frame, time, interval, statistic, baseline, threshold, alert flag}` is
emitted per sample whose dispersion statistic is finite; samples whose
statistic is the undefined sentinel are skipped entirely and produce no
record. -/
theorem telemetry_one_row_per_finite_sample (alpha drop_pct : ℚ) (k : ℕ)
    (rr : List ℚ) (sdnn : List (Option ℚ)) :
    (detect_alerts_and_log rr sdnn alpha drop_pct k).rows.length =
      ((rr.zip sdnn).filter (fun q => q.2.isSome)).length :=
  runPipeline_rows_length drop_pct k (rr.zip sdnn) _ 0

/-- C7 counterexample: A sustain count of `0` — invalid per the
spec — is not rejected: the pipeline starts, processes the sample,
writes a telemetry row, and even emits an alert at frame `0` although
the statistic `10` is above the threshold `8`. -/
theorem config_validation_counterexample :
    (detect_alerts_and_log [1000] [some 10] (1/2) (1/5) 0).rows.length = 1 ∧
    (detect_alerts_and_log [1000] [some 10] (1/2) (1/5) 0).alerts =
      [⟨0, 10, 8, 10⟩] := by
  have hnb : ¬ ((10 : ℚ) < (1 - 1/5) * 10) := by norm_num
  constructor
  · rfl
  · simp only [detect_alerts_and_log, List.zip_cons_cons, List.zip_nil_right,
      runPipeline, pipelineStep, alertStep, BaselineEMA.mk0, BaselineEMA.update]
    simp [hnb]
    norm_num

/-- C7 amended: No configuration validation exists:
`BaselineEMA.__init__` stores any smoothing factor unchanged, and the
pipeline runs with any drop fraction and any sustain count — with
sustain count `0` it emits an alert on the very first finite sample,
whether or not that sample is below threshold. -/
theorem no_config_validation (alpha drop_pct x rr : ℚ) :
    (BaselineEMA.mk0 alpha).alpha = alpha ∧
    (detect_alerts_and_log [rr] [some x] alpha drop_pct 0).alerts.length = 1 := by
  refine ⟨rfl, ?_⟩
  simp only [detect_alerts_and_log, List.zip_cons_cons, List.zip_nil_right,
    runPipeline, pipelineStep, alertStep, BaselineEMA.mk0, BaselineEMA.update]
  by_cases hb : x < (1 - drop_pct) * x
  · simp [hb]
  · simp [hb]

/-- C2: For every index `i` of the series, the rolling variability
estimate equals the spec's unbiased sample standard deviation
(denominator `n − 1`) of exactly the last `N` samples, where
`N = min(window capacity, samples seen so far)` — and it is the
undefined sentinel exactly when that window holds fewer than 2
samples. -/
theorem rolling_sdnn_matches_spec_std (rr : List ℝ) (wf i : ℕ)
    (h : i < rr.length) :
    (rolling_sdnn rr wf)[i]? =
      some (if min wf (i + 1) < 2 then none
        else some (specSampleStd (lastN (min wf (i + 1)) (rr.take (i + 1))))) := by
  have hidx : (List.range rr.length)[i]? = some i := by
    simp [List.getElem?_range, h]
  have hwin : (rr.drop (i + 1 - wf)).take (i + 1 - (i + 1 - wf)) =
      lastN (min wf (i + 1)) (rr.take (i + 1)) := by
    unfold lastN
    have hlen : (rr.take (i + 1)).length = i + 1 := by
      simp [List.length_take]; omega
    rw [hlen, List.drop_take (i + 1) (i + 1 - min wf (i + 1)) rr]
    have e1 : i + 1 - wf = i + 1 - min wf (i + 1) := by omega
    rw [e1]
  have hlen2 : (lastN (min wf (i + 1)) (rr.take (i + 1))).length =
      min wf (i + 1) := by
    unfold lastN
    simp only [List.length_drop, List.length_take]
    omega
  simp only [rolling_sdnn, List.getElem?_map, hidx, Option.map_some']
  rw [hwin]
  by_cases h2 : min wf (i + 1) < 2
  · simp [compute_sdnn, hlen2, h2]
  · simp [compute_sdnn, specSampleStd, listMean, hlen2, h2]

/-- Witness for `rolling_sdnn_matches_spec_std`: series `[1, 1]`,
window capacity `3`, index `1` (window `[1, 1]`). -/
theorem rolling_sdnn_matches_spec_std_witness :
    1 < ([(1 : ℝ), 1]).length ∧
    (rolling_sdnn [(1 : ℝ), 1] 3)[1]? =
      some (if min 3 (1 + 1) < 2 then none
        else some (specSampleStd (lastN (min 3 (1 + 1))
          (([(1 : ℝ), 1]).take (1 + 1))))) :=
  ⟨by norm_num, rolling_sdnn_matches_spec_std [(1 : ℝ), 1] 3 1 (by norm_num)⟩

/-- C6 counterexample: The pipeline does not clamp samples before
the dispersion computation: on the raw series `[2500, 5000]` (both
outside `[300, 2000]`) the rolling estimate at index 1 differs from the
estimate on the clamped series, so the out-of-range values were used
as-is. -/
theorem pipeline_clamp_counterexample :
    (rolling_sdnn [(2500 : ℝ), 5000] 30)[1]? ≠
      (rolling_sdnn (synth_rr_series [(2500 : ℝ), 5000]) 30)[1]? := by
  have hsynth : synth_rr_series [(2500 : ℝ), 5000] = [2000, 2000] := by
    norm_num [synth_rr_series, clamp]
  have h1 : (rolling_sdnn [(2500 : ℝ), 5000] 30)[1]? =
      some (compute_sdnn [(2500 : ℝ), 5000]) := by
    norm_num [rolling_sdnn, List.range_succ]
  have h2 : (rolling_sdnn [(2000 : ℝ), 2000] 30)[1]? =
      some (compute_sdnn [(2000 : ℝ), 2000]) := by
    norm_num [rolling_sdnn, List.range_succ]
  have hv1 : compute_sdnn [(2500 : ℝ), 5000] = some (Real.sqrt 3125000) := by
    norm_num [compute_sdnn, listMean]
  have hv2 : compute_sdnn [(2000 : ℝ), 2000] = some 0 := by
    norm_num [compute_sdnn, listMean, Real.sqrt_eq_zero']
  rw [hsynth, h1, h2, hv1, hv2]
  simp only [ne_eq, Option.some.injEq]
  have hpos : (0 : ℝ) < Real.sqrt 3125000 := Real.sqrt_pos.mpr (by norm_num)
  exact ne_of_gt hpos

/-- C6 amended: Clamping to the physiological range `[300, 2000]`
happens only in the synthetic RR generator `synth_rr_series`, which
clamps every generated draw (silently — nothing is counted or logged);
the pipeline itself inserts samples into the dispersion window
unclamped. -/
theorem synth_rr_series_clamped (raws : List ℝ) (x : ℝ)
    (hx : x ∈ synth_rr_series raws) : 300 ≤ x ∧ x ≤ 2000 := by
  rcases List.mem_map.mp hx with ⟨r, _, rfl⟩
  unfold clamp
  exact ⟨le_max_left _ _, max_le (by norm_num) (min_le_left _ _)⟩

/-- Witness for `synth_rr_series_clamped`: the draw `5000` is emitted
as `clamp 5000`, which lies inside `[300, 2000]`. -/
theorem synth_rr_series_clamped_witness :
    clamp 5000 ∈ synth_rr_series [5000] ∧
      (300 ≤ clamp 5000 ∧ clamp 5000 ≤ 2000) :=
  ⟨by simp [synth_rr_series],
   synth_rr_series_clamped [5000] (clamp 5000) (by simp [synth_rr_series])⟩

end FocusWristband
